import Mathlib

/-!
Verification of the dual-pipeline synchronization core of `video_compare`
(`src/video_compare.cpp`).  The C++ functions and the relevant fragments of
the comparison loop are shallowly embedded as executable Lean definitions;
`int64_t` becomes `Int`, `float` second-arithmetic is modelled by exact
rational arithmetic over `ℚ`, and C++ integer division (truncation toward
zero) becomes `Int.tdiv`.
-/

/-- A decoded, converted picture: its presentation timestamp and duration
(`AVFrame::pts` and the duration field accessed through
`ffmpeg::frame_duration`).  The pixel payload is opaque and irrelevant to the
synchronization logic, so it is omitted. -/
structure Frame where
  pts : Int
  duration : Int
  deriving DecidableEq, Repr, Inhabited

/-- `AV_TIME_TO_SEC`: conversion factor from AV time units to seconds
(`1 / AV_TIME_BASE` with `AV_TIME_BASE = 1000000`). -/
def AV_TIME_TO_SEC : ℚ := 1 / 1000000

/-- `MILLISEC_TO_AV_TIME`: conversion factor from milliseconds to AV time
units. -/
def MILLISEC_TO_AV_TIME : Int := 1000

/-- Embedding of `is_behind` (src/video_compare.cpp:17-26).  The C++ code
computes in `float`; here the same expressions are evaluated in exact
rational arithmetic: `t1 = frame1_pts·AV_TIME_TO_SEC`,
`t2 = frame2_pts·AV_TIME_TO_SEC`, `delta_s = delta_pts·AV_TIME_TO_SEC − 1e-5`,
`tolerance = max delta_s (1/480)`, and the result is `t1 − t2 < −tolerance`. -/
def is_behind (frame1_pts frame2_pts delta_pts : Int) : Bool :=
  let t1 : ℚ := (frame1_pts : ℚ) * AV_TIME_TO_SEC
  let t2 : ℚ := (frame2_pts : ℚ) * AV_TIME_TO_SEC
  let delta_s : ℚ := (delta_pts : ℚ) * AV_TIME_TO_SEC - 1 / 100000
  let diff : ℚ := t1 - t2
  let tolerance : ℚ := max delta_s (1 / 480)
  decide (diff < -tolerance)

/-- Embedding of `compute_min_delta` (src/video_compare.cpp:28-30):
`std::min(delta_left_pts, delta_right_pts) * 8 / 10` on `int64_t`.  C++
signed division truncates toward zero, which is `Int.tdiv`. -/
def compute_min_delta (delta_left_pts delta_right_pts : Int) : Int :=
  Int.tdiv (min delta_left_pts delta_right_pts * 8) 10

/-- Embedding of `is_in_sync` (src/video_compare.cpp:32-36). -/
def is_in_sync (left_pts right_pts delta_left_pts delta_right_pts : Int) : Bool :=
  let min_delta := compute_min_delta delta_left_pts delta_right_pts
  !(is_behind left_pts right_pts min_delta) && !(is_behind right_pts left_pts min_delta)

/-- Embedding of `compute_frame_delay` (src/video_compare.cpp:38-40). -/
def compute_frame_delay (left_pts right_pts : Int) : Int :=
  max left_pts right_pts

/-- The tolerance used inside `is_behind` is at least `1/480 > 0`, so the
two strict comparisons `t1 − t2 < −tol` and `t2 − t1 < −tol` cannot hold at
once.  Shared helper for the drift-test theorems. -/
lemma is_behind_mutex (a b d : Int) :
    ¬(is_behind a b d = true ∧ is_behind b a d = true) := by
  simp only [is_behind, decide_eq_true_eq]
  rintro ⟨h1, h2⟩
  have htol : (1 : ℚ) / 480 ≤ max ((d : ℚ) * AV_TIME_TO_SEC - 1 / 100000) (1 / 480) :=
    le_max_right _ _
  linarith

/-- Concrete evaluation of the drift test: a PTS of 0 is behind a PTS of
1000000 (one second later) under tolerance 0. -/
lemma is_behind_zero_one_second : is_behind 0 1000000 0 = true := by
  rw [is_behind]
  norm_num [AV_TIME_TO_SEC, max_def]

/-- C8: for all PTS values `a`, `b` and every tolerance `d`, if `a` is
behind `b` under `d` then `b` is not behind `a` under `d`: the two drift
tests are never simultaneously true. -/
theorem c8_is_behind_never_both (a b d : Int) (h : is_behind a b d = true) :
    is_behind b a d = false := by
  cases hba : is_behind b a d with
  | false => rfl
  | true => exact absurd ⟨h, hba⟩ (is_behind_mutex a b d)

/-- Witness for C8 at a concrete input: PTS 0 is behind PTS 1000000 (one
second later) under tolerance 0, and the reverse test is false. -/
theorem c8_is_behind_never_both_witness :
    is_behind 0 1000000 0 = true ∧ is_behind 1000000 0 0 = false :=
  ⟨is_behind_zero_one_second, c8_is_behind_never_both 0 1000000 0 is_behind_zero_one_second⟩

/-- C7 counterexample: at `delta_left = delta_right = 1` the C++ expression
`min(1,1) * 8 / 10` truncates to `0`, which is not the exact product
`min(1,1) · 0.8 = 4/5`. -/
theorem c7_min_delta_not_exact_product :
    (compute_min_delta 1 1 : ℚ) ≠ ((min 1 1 : Int) : ℚ) * (8 / 10) := by
  have h : compute_min_delta 1 1 = 0 := by decide
  rw [h]
  norm_num

/-- C7 (amended): for non-negative rolling deltas the working tolerance is
`min(delta_left, delta_right) · 0.8` rounded down to an integer, i.e.
`⌊min · 8/10⌋`; it equals the exact product only when that product is an
integer. -/
theorem c7_min_delta_floor (delta_left_pts delta_right_pts : Int)
    (h : 0 ≤ min delta_left_pts delta_right_pts) :
    compute_min_delta delta_left_pts delta_right_pts =
      ⌊((min delta_left_pts delta_right_pts : Int) : ℚ) * (8 / 10)⌋ := by
  set m := min delta_left_pts delta_right_pts with hm
  have h8 : (0 : Int) ≤ m * 8 := by positivity
  have hdiv : Int.tdiv (m * 8) 10 = (m * 8) / 10 := Int.tdiv_eq_ediv h8 (by norm_num)
  have hfloor : ⌊((m * 8 : Int) : ℚ) / ((10 : ℕ) : ℚ)⌋ = (m * 8) / ((10 : ℕ) : Int) :=
    Rat.floor_intCast_div_natCast (m * 8) 10
  have hcast : ((m : ℚ) * (8 / 10)) = ((m * 8 : Int) : ℚ) / ((10 : ℕ) : ℚ) := by
    push_cast
    ring
  rw [compute_min_delta, ← hm, hdiv, hcast, hfloor]
  norm_num

/-- Witness for C7 (amended) at `delta_left = 7`, `delta_right = 9`:
`min = 7`, `7·8/10` truncates to `5 = ⌊5.6⌋`. -/
theorem c7_min_delta_floor_witness :
    (0 : Int) ≤ min 7 9 ∧ compute_min_delta 7 9 = ⌊((min 7 9 : Int) : ℚ) * (8 / 10)⌋ :=
  ⟨by decide, c7_min_delta_floor 7 9 (by decide)⟩

/-! ## Catch-up adjustment (src/video_compare.cpp:527-540) -/

/-- Observable outcome of the per-iteration catch-up adjustment: how many
extra frames were popped for each side and whether the iteration was marked
`adjusting`. -/
structure AdjustResult where
  pops_left : Nat
  pops_right : Nat
  adjusting : Bool
  deriving DecidableEq, Repr

/-- Embedding of the catch-up adjustment step (src/video_compare.cpp:527-540).
Each side is tested independently with the shared tolerance `min_delta`; a
side that is behind has one pop attempted on its frame queue
(`left_avail`/`right_avail` say whether the pop succeeds, i.e. whether the
queue can deliver a frame), and its decoded-picture counter is bumped only
on success. -/
def adjust_step (left_pts right_pts min_delta : Int) (left_avail right_avail : Bool) :
    AdjustResult :=
  let left_is_behind := is_behind left_pts right_pts min_delta
  let right_is_behind := is_behind right_pts left_pts min_delta
  { pops_left := if left_is_behind && left_avail then 1 else 0
    pops_right := if right_is_behind && right_avail then 1 else 0
    adjusting := left_is_behind || right_is_behind }

/-- C4 counterexample: the claim that "both sides may adjust in the same
iteration" is false — there is no input on which the adjustment step pops
an extra frame for both sides at once, because the two guards
`is_behind(l,r,d)` and `is_behind(r,l,d)` are mutually exclusive. -/
theorem c4_no_simultaneous_catch_up :
    ¬ ∃ (l r d : Int) (la ra : Bool),
        0 < (adjust_step l r d la ra).pops_left ∧ 0 < (adjust_step l r d la ra).pops_right := by
  rintro ⟨l, r, d, la, ra, hl, hr⟩
  cases h1 : is_behind l r d with
  | false =>
    rw [adjust_step] at hl
    simp [h1] at hl
  | true =>
    cases h2 : is_behind r l d with
    | false =>
      rw [adjust_step] at hr
      simp [h2] at hr
    | true => exact is_behind_mutex l r d ⟨h1, h2⟩

/-- C4 (amended): adjustment is evaluated independently per side; a side
pops exactly one extra frame iff it is behind and its queue delivers a
frame; each side pops at most one extra frame per iteration, and because
the two `is_behind` guards are mutually exclusive, at most one side (not
both) can adjust in any single iteration. -/
theorem c4_adjust_step_characterisation (l r d : Int) (la ra : Bool) :
    (adjust_step l r d la ra).pops_left + (adjust_step l r d la ra).pops_right ≤ 1 ∧
    ((adjust_step l r d la ra).pops_left = 1 ↔ (is_behind l r d && la) = true) ∧
    ((adjust_step l r d la ra).pops_right = 1 ↔ (is_behind r l d && ra) = true) ∧
    (adjust_step l r d la ra).adjusting = (is_behind l r d || is_behind r l d) := by
  refine ⟨?_, ?_, ?_, rfl⟩
  · cases h1 : is_behind l r d with
    | false =>
      cases h2 : is_behind r l d <;> cases la <;> cases ra <;> simp [adjust_step, h1, h2]
    | true =>
      cases h2 : is_behind r l d with
      | false => cases la <;> cases ra <;> simp [adjust_step, h1, h2]
      | true => exact absurd ⟨h1, h2⟩ (is_behind_mutex l r d)
  · cases h1 : is_behind l r d <;> cases la <;> simp [adjust_step, h1]
  · cases h2 : is_behind r l d <;> cases ra <;> simp [adjust_step, h2]

/-! ## The ReadyToSeek barrier (src/video_compare.cpp:152-159, 206-210) -/

/-- The two pipeline sides. -/
inductive Side where
  | left
  | right
  deriving DecidableEq, Repr

/-- The ReadyToSeek barrier: per side, two independent readiness booleans
(`ReadyToSeek::DEMULTIPLEXER` and `ReadyToSeek::DECODER`), cleared by
`reset()`. -/
structure ReadyToSeek where
  demultiplexer_left : Bool
  demultiplexer_right : Bool
  decoder_left : Bool
  decoder_right : Bool
  deriving DecidableEq, Repr

/-- `ready_to_seek_.get(ReadyToSeek::DEMULTIPLEXER, side)`. -/
def ReadyToSeek.get_demultiplexer (st : ReadyToSeek) : Side → Bool
  | Side.left => st.demultiplexer_left
  | Side.right => st.demultiplexer_right

/-- `ready_to_seek_.get(ReadyToSeek::DECODER, side)`. -/
def ReadyToSeek.get_decoder (st : ReadyToSeek) : Side → Bool
  | Side.left => st.decoder_left
  | Side.right => st.decoder_right

/-- `ready_to_seek_.set(ReadyToSeek::DEMULTIPLEXER, side)`. -/
def ReadyToSeek.set_demultiplexer (st : ReadyToSeek) : Side → ReadyToSeek
  | Side.left => { st with demultiplexer_left := true }
  | Side.right => { st with demultiplexer_right := true }

/-- `ready_to_seek_.set(ReadyToSeek::DECODER, side)`. -/
def ReadyToSeek.set_decoder (st : ReadyToSeek) : Side → ReadyToSeek
  | Side.left => { st with decoder_left := true }
  | Side.right => { st with decoder_right := true }

/-- `ready_to_seek_.reset()`: clear all four flags. -/
def ReadyToSeek.reset : ReadyToSeek :=
  ⟨false, false, false, false⟩

/-- The events that touch the barrier flags, as they appear in the worker
loops: `reset` from the comparison loop's seek block
(src/video_compare.cpp:407); `decoder_signal` from `decode_video`'s
`flush_and_signal` (src/video_compare.cpp:206-210); `demultiplex_poll` from
the head of the `demultiplex` loop (src/video_compare.cpp:152-159), which
sets the demultiplexer flag only when `seeking_` is active and this side's
decoder flag is already set. -/
inductive BarrierEvent where
  | reset
  | decoder_signal (s : Side)
  | demultiplex_poll (s : Side) (seeking : Bool)
  deriving DecidableEq, Repr

/-- One barrier transition. -/
def barrier_step (st : ReadyToSeek) : BarrierEvent → ReadyToSeek
  | BarrierEvent.reset => ReadyToSeek.reset
  | BarrierEvent.decoder_signal s => st.set_decoder s
  | BarrierEvent.demultiplex_poll s seeking =>
      if seeking && st.get_decoder s then st.set_demultiplexer s else st

/-- Run a sequence of barrier events from the cleared barrier. -/
def barrier_run (events : List BarrierEvent) : ReadyToSeek :=
  events.foldl barrier_step ReadyToSeek.reset

/-- Every barrier transition preserves the per-side implication
"demultiplexer ready → decoder ready". -/
lemma barrier_step_preserves (st : ReadyToSeek) (e : BarrierEvent)
    (hL : st.demultiplexer_left = true → st.decoder_left = true)
    (hR : st.demultiplexer_right = true → st.decoder_right = true) :
    ((barrier_step st e).demultiplexer_left = true → (barrier_step st e).decoder_left = true) ∧
    ((barrier_step st e).demultiplexer_right = true → (barrier_step st e).decoder_right = true) := by
  cases e with
  | reset => simp [barrier_step, ReadyToSeek.reset]
  | decoder_signal s =>
    cases s <;> simp_all [barrier_step, ReadyToSeek.set_decoder]
  | demultiplex_poll s seeking =>
    cases s <;>
      simp only [barrier_step, ReadyToSeek.get_demultiplexer, ReadyToSeek.get_decoder] <;>
      split <;>
      simp_all [ReadyToSeek.set_demultiplexer, ReadyToSeek.get_decoder]

/-- The implication is an inductive invariant of any event sequence. -/
lemma barrier_foldl_inv (events : List BarrierEvent) (st : ReadyToSeek)
    (hL : st.demultiplexer_left = true → st.decoder_left = true)
    (hR : st.demultiplexer_right = true → st.decoder_right = true) :
    ((events.foldl barrier_step st).demultiplexer_left = true →
      (events.foldl barrier_step st).decoder_left = true) ∧
    ((events.foldl barrier_step st).demultiplexer_right = true →
      (events.foldl barrier_step st).decoder_right = true) := by
  induction events generalizing st with
  | nil => exact ⟨hL, hR⟩
  | cons e rest ih =>
    have h := barrier_step_preserves st e hL hR
    exact ih (barrier_step st e) h.1 h.2

/-- C9: after any sequence of barrier events (in particular between barrier
resets), a side whose DEMULTIPLEXER flag is set also has its DECODER flag
set, because the demultiplex stage only sets its flag when `seeking_` is
active and that side's decoder flag is already set. -/
theorem c9_demultiplexer_ready_implies_decoder_ready
    (events : List BarrierEvent) (s : Side)
    (h : (barrier_run events).get_demultiplexer s = true) :
    (barrier_run events).get_decoder s = true := by
  have hinv := barrier_foldl_inv events ReadyToSeek.reset (by simp [ReadyToSeek.reset])
    (by simp [ReadyToSeek.reset])
  cases s with
  | left => exact hinv.1 h
  | right => exact hinv.2 h

/-- Witness for C9: the left decoder signals readiness, then the left
demultiplexer polls during a seek and sets its own flag; both flags are
observed set. -/
theorem c9_demultiplexer_ready_implies_decoder_ready_witness :
    (barrier_run [BarrierEvent.decoder_signal Side.left,
      BarrierEvent.demultiplex_poll Side.left true]).get_demultiplexer Side.left = true ∧
    (barrier_run [BarrierEvent.decoder_signal Side.left,
      BarrierEvent.demultiplex_poll Side.left true]).get_decoder Side.left = true :=
  ⟨by decide, c9_demultiplexer_ready_implies_decoder_ready
    [BarrierEvent.decoder_signal Side.left, BarrierEvent.demultiplex_poll Side.left true]
    Side.left (by decide)⟩

/-! ## Exception propagation (src/video_compare.cpp:122-135, 188-192, 260-264, 332-334, 732-739) -/

/-- The payload of a pipeline failure is opaque; a string message suffices
(the C++ side throws `std::runtime_error`). -/
abbrev PipelineError := String

/-- Modelled from the spec: the `ExceptionHolder` class itself is not under
`src/`; per the spec it is a "single-slot cross-thread failure channel"
with first-failure-wins semantics.  Its state is the optionally stored
first error. -/
structure ExceptionHolder where
  stored : Option PipelineError
  deriving DecidableEq, Repr

/-- Modelled from the spec: `store_current_exception` records the current
error only when no error is stored yet (first failure wins; later failures
are discarded). -/
def store_current_exception (h : ExceptionHolder) (e : PipelineError) : ExceptionHolder :=
  match h.stored with
  | none => ⟨some e⟩
  | some _ => h

/-- Modelled from the spec: `rethrow_stored_exception` throws the stored
error if there is one and otherwise does nothing.  The returned value is
the error thrown (`none` when nothing is thrown); the holder itself is
unchanged. -/
def rethrow_stored_exception (h : ExceptionHolder) : Option PipelineError :=
  h.stored

/-- Modelled from the spec: `has_exception` reports whether an error is
stored. -/
def has_exception (h : ExceptionHolder) : Bool :=
  h.stored.isSome

/-- Embedding of `keep_running` (src/video_compare.cpp:332-334): the loop
and the worker stages continue while the display has not signalled quit and
no exception is stored. -/
def keep_running (display_quit : Bool) (h : ExceptionHolder) : Bool :=
  !display_quit && !(has_exception h)

/-- Observable outcome of a worker stage's `catch` handler. -/
structure WorkerCatchResult where
  holder : ExceptionHolder
  side_queues_quit : Bool
  escaped : Option PipelineError
  deriving DecidableEq, Repr

/-- Embedding of the `catch (...)` handler shared by `demultiplex`
(src/video_compare.cpp:188-192) and `decode_video`
(src/video_compare.cpp:260-264).  The handler first calls
`exception_holder_.rethrow_stored_exception()` — not
`store_current_exception()` — and only afterwards quits this side's frame
and packet queues.  `_current` is the in-flight exception being handled; it
is never passed to the holder.  If the rethrow throws (a previous error was
stored), the two `quit()` calls are skipped and the exception escapes the
thread function (`escaped`). -/
def worker_catch_handler (h : ExceptionHolder) (_current : PipelineError) : WorkerCatchResult :=
  match rethrow_stored_exception h with
  | some e => { holder := h, side_queues_quit := false, escaped := some e }
  | none => { holder := h, side_queues_quit := true, escaped := none }

/-- C1 (code bug), evaluated at the failing input: a fatal decode failure
("Error transferring frame from GPU to CPU") on one side while no error is
stored yet.  The worker's catch handler leaves the holder empty — the error
is never captured — so `has_exception` stays false, `keep_running` stays
true (the comparison loop does not terminate on this failure), and the
final `rethrow_stored_exception()` in `operator()`
(src/video_compare.cpp:134) throws nothing.  Storing the error, as both the
spec and `compare()`'s own handler (src/video_compare.cpp:733) do, would
have produced a stored error. -/
theorem c1_worker_failure_not_captured :
    (worker_catch_handler ⟨none⟩ "Error transferring frame from GPU to CPU").holder = ⟨none⟩ ∧
    has_exception (worker_catch_handler ⟨none⟩
      "Error transferring frame from GPU to CPU").holder = false ∧
    keep_running false (worker_catch_handler ⟨none⟩
      "Error transferring frame from GPU to CPU").holder = true ∧
    rethrow_stored_exception (worker_catch_handler ⟨none⟩
      "Error transferring frame from GPU to CPU").holder = none ∧
    store_current_exception ⟨none⟩ "Error transferring frame from GPU to CPU" =
      ⟨some "Error transferring frame from GPU to CPU"⟩ :=
  ⟨rfl, rfl, rfl, rfl, rfl⟩

/-! ## Frame history rings and the scrub index
(src/video_compare.cpp:626-651, 657-661, 685-688) -/

/-- Push a frame to the front of a ring, evicting the back (oldest) entry
first when the ring has reached `cap` (src/video_compare.cpp:627-635).
The front of the list is the newest entry (`push_front`); the last element
is the oldest (`back`). -/
def push_evict (cap : Nat) (f : Frame) (ring : List Frame) : List Frame :=
  let ring := if cap ≤ ring.length then ring.dropLast else ring
  f :: ring

/-- Handling of a lone frame outside a stored pair
(src/video_compare.cpp:636-650): overwrite the most recent (front) entry,
or seed the ring when it is empty. -/
def seed_or_overwrite (f : Frame) (ring : List Frame) : List Frame :=
  match ring with
  | [] => [f]
  | _ :: rest => f :: rest

/-- Embedding of the history update (src/video_compare.cpp:626-651).  When
`store_frames` is set both frames are present (both pops succeeded) and
each is pushed to the front of its ring with eviction; otherwise each side
that holds a lone frame seeds or overwrites its own ring. -/
def history_update (cap : Nat) (store_frames : Bool) (frame_left frame_right : Option Frame)
    (left_frames right_frames : List Frame) : List Frame × List Frame :=
  if store_frames then
    match frame_left, frame_right with
    | some fl, some fr => (push_evict cap fl left_frames, push_evict cap fr right_frames)
    | _, _ => (left_frames, right_frames)
  else
    (match frame_left with
     | some fl => seed_or_overwrite fl left_frames
     | none => left_frames,
     match frame_right with
     | some fr => seed_or_overwrite fr right_frames
     | none => right_frames)

/-- Embedding of the scrub-index clamp (src/video_compare.cpp:657-661):
`std::min(std::max(0, frame_offset + adjustment), max_left_frame_index)`,
where `max_left_frame_index = (int)left_frames.size() - 1`. -/
def adjust_frame_offset (max_left_frame_index frame_offset adjustment : Int) : Int :=
  min (max 0 (frame_offset + adjustment)) max_left_frame_index

/-- `push_evict` never grows a ring beyond `cap` (for `cap ≥ 1`). -/
lemma push_evict_length_le (cap : Nat) (f : Frame) (ring : List Frame)
    (hcap : 1 ≤ cap) (h : ring.length ≤ cap) :
    (push_evict cap f ring).length ≤ cap := by
  simp only [push_evict]
  split
  · rename_i hge
    simp only [List.length_cons, List.length_dropLast]
    omega
  · rename_i hlt
    simp only [List.length_cons]
    omega

/-- C6: the history-ring policy.  For a stored pair, each ring stays within
the configured capacity and, when a ring is at capacity, its oldest (back)
entry is evicted before the new frame is pushed to the front.  For a lone
frame (here shown for a lone left frame and a lone right frame), the other
ring is untouched, an empty ring is seeded and a non-empty ring has its
most-recent (front) entry overwritten without growing. -/
theorem c6_history_ring_policy (cap : Nat) (fl fr : Frame)
    (left_frames right_frames : List Frame)
    (hcap : 1 ≤ cap) (hl : left_frames.length ≤ cap) (hr : right_frames.length ≤ cap) :
    ((history_update cap true (some fl) (some fr) left_frames right_frames).1.length ≤ cap ∧
     (history_update cap true (some fl) (some fr) left_frames right_frames).2.length ≤ cap ∧
     (left_frames.length = cap →
       (history_update cap true (some fl) (some fr) left_frames right_frames).1 =
         fl :: left_frames.dropLast) ∧
     (right_frames.length = cap →
       (history_update cap true (some fl) (some fr) left_frames right_frames).2 =
         fr :: right_frames.dropLast)) ∧
    ((history_update cap false (some fl) none left_frames right_frames).2 = right_frames ∧
     (left_frames = [] →
       (history_update cap false (some fl) none left_frames right_frames).1 = [fl]) ∧
     (left_frames ≠ [] →
       (history_update cap false (some fl) none left_frames right_frames).1 =
         fl :: left_frames.tail ∧
       (history_update cap false (some fl) none left_frames right_frames).1.length =
         left_frames.length) ∧
     (history_update cap false (some fl) none left_frames right_frames).1.length ≤ cap) ∧
    ((history_update cap false none (some fr) left_frames right_frames).1 = left_frames ∧
     (right_frames = [] →
       (history_update cap false none (some fr) left_frames right_frames).2 = [fr]) ∧
     (right_frames ≠ [] →
       (history_update cap false none (some fr) left_frames right_frames).2 =
         fr :: right_frames.tail ∧
       (history_update cap false none (some fr) left_frames right_frames).2.length =
         right_frames.length) ∧
     (history_update cap false none (some fr) left_frames right_frames).2.length ≤ cap) := by
  refine ⟨⟨?_, ?_, ?_, ?_⟩, ?_⟩
  · exact push_evict_length_le cap fl left_frames hcap hl
  · exact push_evict_length_le cap fr right_frames hcap hr
  · intro hfull
    simp [history_update, push_evict, hfull]
  · intro hfull
    simp [history_update, push_evict, hfull]
  · cases left_frames with
    | nil =>
      cases right_frames with
      | nil => simp [history_update, seed_or_overwrite, hcap]
      | cons b bs =>
        refine ⟨⟨rfl, fun _ => rfl, fun hne => absurd rfl hne, by simpa using hcap⟩, ?_⟩
        refine ⟨rfl, fun hemp => by simp at hemp, fun _ => ⟨rfl, rfl⟩, ?_⟩
        simpa [history_update, seed_or_overwrite] using hr
    | cons a as =>
      cases right_frames with
      | nil =>
        refine ⟨⟨rfl, fun hemp => by simp at hemp, fun _ => ⟨rfl, rfl⟩, ?_⟩, ?_⟩
        · simpa [history_update, seed_or_overwrite] using hl
        · exact ⟨rfl, fun _ => rfl, fun hne => absurd rfl hne, by simpa using hcap⟩
      | cons b bs =>
        refine ⟨⟨rfl, fun hemp => by simp at hemp, fun _ => ⟨rfl, rfl⟩, ?_⟩, ?_⟩
        · simpa [history_update, seed_or_overwrite] using hl
        · refine ⟨rfl, fun hemp => by simp at hemp, fun _ => ⟨rfl, rfl⟩, ?_⟩
          simpa [history_update, seed_or_overwrite] using hr

/-- Witness for C6 at capacity 1 with singleton rings: the stored pair
evicts the old entries, and each lone-frame case overwrites the front
without growing. -/
theorem c6_history_ring_policy_witness :
    (1 ≤ 1 ∧ [Frame.mk 2 0].length ≤ 1 ∧ [Frame.mk 3 0].length ≤ 1) ∧
    (((history_update 1 true (some ⟨4, 0⟩) (some ⟨5, 0⟩) [⟨2, 0⟩] [⟨3, 0⟩]).1.length ≤ 1 ∧
      (history_update 1 true (some ⟨4, 0⟩) (some ⟨5, 0⟩) [⟨2, 0⟩] [⟨3, 0⟩]).2.length ≤ 1 ∧
      ([Frame.mk 2 0].length = 1 →
        (history_update 1 true (some ⟨4, 0⟩) (some ⟨5, 0⟩) [⟨2, 0⟩] [⟨3, 0⟩]).1 =
          ⟨4, 0⟩ :: [Frame.mk 2 0].dropLast) ∧
      ([Frame.mk 3 0].length = 1 →
        (history_update 1 true (some ⟨4, 0⟩) (some ⟨5, 0⟩) [⟨2, 0⟩] [⟨3, 0⟩]).2 =
          ⟨5, 0⟩ :: [Frame.mk 3 0].dropLast)) ∧
     ((history_update 1 false (some ⟨4, 0⟩) none [⟨2, 0⟩] [⟨3, 0⟩]).2 = [⟨3, 0⟩] ∧
      ([Frame.mk 2 0] = [] →
        (history_update 1 false (some ⟨4, 0⟩) none [⟨2, 0⟩] [⟨3, 0⟩]).1 = [⟨4, 0⟩]) ∧
      ([Frame.mk 2 0] ≠ [] →
        (history_update 1 false (some ⟨4, 0⟩) none [⟨2, 0⟩] [⟨3, 0⟩]).1 =
          ⟨4, 0⟩ :: [Frame.mk 2 0].tail ∧
        (history_update 1 false (some ⟨4, 0⟩) none [⟨2, 0⟩] [⟨3, 0⟩]).1.length =
          [Frame.mk 2 0].length) ∧
      (history_update 1 false (some ⟨4, 0⟩) none [⟨2, 0⟩] [⟨3, 0⟩]).1.length ≤ 1) ∧
     ((history_update 1 false none (some ⟨5, 0⟩) [⟨2, 0⟩] [⟨3, 0⟩]).1 = [⟨2, 0⟩] ∧
      ([Frame.mk 3 0] = [] →
        (history_update 1 false none (some ⟨5, 0⟩) [⟨2, 0⟩] [⟨3, 0⟩]).2 = [⟨5, 0⟩]) ∧
      ([Frame.mk 3 0] ≠ [] →
        (history_update 1 false none (some ⟨5, 0⟩) [⟨2, 0⟩] [⟨3, 0⟩]).2 =
          ⟨5, 0⟩ :: [Frame.mk 3 0].tail ∧
        (history_update 1 false none (some ⟨5, 0⟩) [⟨2, 0⟩] [⟨3, 0⟩]).2.length =
          [Frame.mk 3 0].length) ∧
      (history_update 1 false none (some ⟨5, 0⟩) [⟨2, 0⟩] [⟨3, 0⟩]).2.length ≤ 1)) :=
  ⟨⟨by decide, by decide, by decide⟩,
    c6_history_ring_policy 1 ⟨4, 0⟩ ⟨5, 0⟩ [⟨2, 0⟩] [⟨3, 0⟩] (by decide) (by decide) (by decide)⟩

/-- C5 counterexample: the claim that the clamped scrub index is in bounds
for both rings fails on a reachable state.  From empty rings, a lone left
frame (from a catch-up pop) seeds the left ring, then a stored pair pushes
both rings, leaving the left ring with 2 entries and the right ring with 1.
A pending scrub delta of 9 is clamped only against the left ring
(`max_left_frame_index = 1`): the resulting index 1 passes the render guard
(index ≥ 0, both rings non-empty) but is out of bounds for the right ring,
whose only valid index is 0. -/
theorem c5_scrub_index_out_of_bounds_right :
    (history_update 2 false (some ⟨0, 0⟩) none [] []).1 = [⟨0, 0⟩] ∧
    (history_update 2 false (some ⟨0, 0⟩) none [] []).2 = [] ∧
    (history_update 2 true (some ⟨40, 0⟩) (some ⟨35, 0⟩)
      (history_update 2 false (some ⟨0, 0⟩) none [] []).1
      (history_update 2 false (some ⟨0, 0⟩) none [] []).2).1.length = 2 ∧
    (history_update 2 true (some ⟨40, 0⟩) (some ⟨35, 0⟩)
      (history_update 2 false (some ⟨0, 0⟩) none [] []).1
      (history_update 2 false (some ⟨0, 0⟩) none [] []).2).2.length = 1 ∧
    adjust_frame_offset ((2 : Int) - 1) 0 9 = 1 ∧
    0 ≤ adjust_frame_offset ((2 : Int) - 1) 0 9 ∧
    ¬(adjust_frame_offset ((2 : Int) - 1) 0 9 < (1 : Int)) := by
  decide

/-- C5 (amended): after applying any pending scrub-offset delta, the scrub
index is clamped to `[0, leftHistorySize − 1]`; accesses through it are
always in bounds for the left ring, and in bounds for the right ring
whenever the right ring is at least as large as the left ring (in
particular whenever the two rings have equal size). -/
theorem c5_scrub_index_left_ring_bounds (left_frames right_frames : List Frame)
    (frame_offset adjustment : Int) (h : left_frames ≠ []) :
    0 ≤ adjust_frame_offset ((left_frames.length : Int) - 1) frame_offset adjustment ∧
    adjust_frame_offset ((left_frames.length : Int) - 1) frame_offset adjustment <
      (left_frames.length : Int) ∧
    ((left_frames.length : Int) ≤ (right_frames.length : Int) →
      adjust_frame_offset ((left_frames.length : Int) - 1) frame_offset adjustment <
        (right_frames.length : Int)) := by
  have hpos : 0 < left_frames.length := List.length_pos.mpr h
  unfold adjust_frame_offset
  omega

/-- Witness for C5 (amended) with singleton rings and a large positive
delta: the clamped index is 0, in bounds for both rings. -/
theorem c5_scrub_index_left_ring_bounds_witness :
    [Frame.mk 1 0] ≠ [] ∧
    (0 ≤ adjust_frame_offset (([Frame.mk 1 0].length : Int) - 1) 0 5 ∧
     adjust_frame_offset (([Frame.mk 1 0].length : Int) - 1) 0 5 <
       ([Frame.mk 1 0].length : Int) ∧
     (([Frame.mk 1 0].length : Int) ≤ ([Frame.mk 2 0].length : Int) →
       adjust_frame_offset (([Frame.mk 1 0].length : Int) - 1) 0 5 <
         ([Frame.mk 2 0].length : Int))) :=
  ⟨by decide, c5_scrub_index_left_ring_bounds [⟨1, 0⟩] [⟨2, 0⟩] 0 5 (by decide)⟩

/-! ## Automatic loop-mode arming (src/video_compare.cpp:653-655, 663-667, 723-728) -/

/-- `Display::Loop`. -/
inductive LoopMode where
  | off
  | forwardonly
  | pingpong
  deriving DecidableEq, Repr

/-- `buffer_is_full` (src/video_compare.cpp:655): BOTH rings must hold
exactly `frame_buffer_size` frames. -/
def buffer_is_full (frame_buffer_size left_size right_size : Nat) : Bool :=
  left_size == frame_buffer_size && right_size == frame_buffer_size

/-- `end_of_file` (src/video_compare.cpp:653-654): the iteration had no
activity (not skipped, not adjusting, no stored pair) and at least one
frame queue is stopped. -/
def end_of_file (skip_update adjusting store_frames left_stopped right_stopped : Bool) : Bool :=
  !skip_update && !adjusting && !store_frames && (left_stopped || right_stopped)

/-- The per-iteration facts that feed the auto-loop arming check:
`render_guard` is the guard `frame_offset ≥ 0 && !left_frames.empty() &&
!right_frames.empty()` (src/video_compare.cpp:663), `skip_refresh` the
10 Hz throttle (src/video_compare.cpp:667), `full` and `eof` the values of
`buffer_is_full` and `end_of_file` for this iteration. -/
structure ArmIterInput where
  render_guard : Bool
  skip_refresh : Bool
  full : Bool
  eof : Bool
  deriving DecidableEq, Repr

/-- Embedding of the auto-loop arming decision
(src/video_compare.cpp:724-728): the configured loop mode is armed in an
iteration iff that iteration reaches the refresh block (render guard holds
and the refresh is not throttled away), an automatic mode is configured,
it has not been triggered before, and `buffer_is_full || end_of_file`. -/
def arm_now (auto_loop_mode : LoopMode) (auto_loop_triggered : Bool) (it : ArmIterInput) : Bool :=
  it.render_guard && !it.skip_refresh && decide (auto_loop_mode ≠ LoopMode.off) &&
    !auto_loop_triggered && (it.full || it.eof)

/-- Fold the arming decision over successive iterations, starting from a
given `auto_loop_triggered` flag; returns how many iterations armed the
loop mode. -/
def arm_count (auto_loop_mode : LoopMode) : Bool → List ArmIterInput → Nat
  | _, [] => 0
  | triggered, it :: rest =>
      let a := arm_now auto_loop_mode triggered it
      (if a then 1 else 0) + arm_count auto_loop_mode (triggered || a) rest

/-- Once `auto_loop_triggered` is set, no later iteration arms again. -/
lemma arm_count_triggered (auto_loop_mode : LoopMode) (its : List ArmIterInput) :
    arm_count auto_loop_mode true its = 0 := by
  induction its with
  | nil => rfl
  | cons it rest ih => simp [arm_count, arm_now, ih]

/-- C2 counterexample: a state in which the left ring has just become full
(size 2 at capacity 2) while the right ring has not (size 1), no queue is
stopped, an automatic loop mode is configured and untriggered, and the
iteration renders.  The claim says the loop mode is armed; the code does
not arm it, because `buffer_is_full` requires BOTH rings to be full. -/
theorem c2_left_full_alone_does_not_arm :
    buffer_is_full 2 2 1 = false ∧
    end_of_file false false true false false = false ∧
    arm_now LoopMode.forwardonly false
      { render_guard := true, skip_refresh := false,
        full := buffer_is_full 2 2 1,
        eof := end_of_file false false true false false } = false := by
  decide

/-- C2 (amended): in every iteration that reaches the refresh block, with
an automatic loop mode configured and not yet triggered, the mode is armed
exactly when BOTH sides' histories hold exactly `frame_buffer_size` frames
or the iteration had no activity and either frame queue is stopped; over
any sequence of iterations the mode is armed at most once, and never again
once triggered. -/
theorem c2_auto_loop_armed_once (auto_loop_mode : LoopMode) (its : List ArmIterInput) :
    arm_count auto_loop_mode false its ≤ 1 ∧
    (∀ (triggered : Bool) (it : ArmIterInput),
      arm_now auto_loop_mode triggered it = true ↔
        (it.render_guard = true ∧ it.skip_refresh = false ∧
         auto_loop_mode ≠ LoopMode.off ∧ triggered = false ∧
         (it.full = true ∨ it.eof = true))) ∧
    (∀ (cap left_size right_size : Nat),
      buffer_is_full cap left_size right_size = true ↔
        (left_size = cap ∧ right_size = cap)) := by
  refine ⟨?_, ?_, ?_⟩
  · induction its with
    | nil => simp [arm_count]
    | cons it rest ih =>
      rw [arm_count]
      cases ha : arm_now auto_loop_mode false it with
      | false => simpa [ha] using ih
      | true => simp [ha, arm_count_triggered]
  · intro triggered it
    obtain ⟨rg, sr, fu, eo⟩ := it
    cases triggered <;> cases rg <;> cases sr <;> cases fu <;> cases eo <;>
      simp [arm_now]
  · intro cap left_size right_size
    simp [buffer_is_full]

/-! ## Seek failure and rollback (src/video_compare.cpp:433-462, 503) -/

/-- Modelled from the spec: the external `Demuxer` (§6) exposes
`seek(position_seconds, backward) → bool` together with a duration; a
forward seek fails when it "would pass end-of-stream", leaving the position
unchanged, while any other seek succeeds and moves the demuxer to the
target position.  Positions and durations are seconds (`float` in C++,
exact rationals here). -/
structure Demuxer where
  position : ℚ
  duration : ℚ
  deriving DecidableEq, Repr

/-- Modelled from the spec: `Demuxer::seek`.  Returns the demuxer after the
call and the success flag. -/
def demuxer_seek (d : Demuxer) (target : ℚ) (backward : Bool) : Demuxer × Bool :=
  if backward = true ∨ target ≤ d.duration then ({ d with position := target }, true)
  else (d, false)

/-- The pre-seek position snapshot (src/video_compare.cpp:435-436): both
sides are computed from the current LEFT pts; each side adds its own start
time. -/
def seek_positions (left_pts : Int) (left_start_time right_start_time : ℚ) : ℚ × ℚ :=
  ((left_pts : ℚ) * AV_TIME_TO_SEC + left_start_time,
   (left_pts : ℚ) * AV_TIME_TO_SEC + right_start_time)

/-- Computation of the seek targets (src/video_compare.cpp:438-449). -/
def seek_targets (seek_from_start : Bool) (seek_relative : ℚ) (shortest_duration : ℚ)
    (left_position right_position : ℚ) (left_start_time right_start_time : ℚ)
    (right_time_shift delta_right_pts : Int) : ℚ × ℚ :=
  if seek_from_start then
    (shortest_duration * seek_relative + left_start_time,
     shortest_duration * seek_relative + right_start_time)
  else
    (left_position + seek_relative,
     if right_time_shift < 0 then
       right_position + seek_relative +
         ((right_time_shift + delta_right_pts : Int) : ℚ) * AV_TIME_TO_SEC
     else right_position + seek_relative)

/-- Outcome of the demuxer-seek section of the seek block. -/
structure SeekOutcome where
  left_demuxer : Demuxer
  right_demuxer : Demuxer
  message : String
  skip_update : Bool
  deriving DecidableEq, Repr

/-- Embedding of the demuxer-seek section of the seek block
(src/video_compare.cpp:456-462 followed by line 503).  The left demuxer is
seeked first; by `||` short-circuiting the right seek is attempted only
when the left one did not fail forward.  If a forward seek failed, the
user-visible message is set and both demuxers are rolled back to the
pre-seek position snapshot with (always-successful) backward seeks.  The
block always ends with `skip_update = true`; it contains no `break`, so the
comparison loop continues. -/
def seek_block (left_demuxer right_demuxer : Demuxer)
    (next_left_position next_right_position : ℚ)
    (left_position right_position : ℚ) (backward : Bool) : SeekOutcome :=
  let sl := demuxer_seek left_demuxer next_left_position backward
  if !sl.2 && !backward then
    { left_demuxer := (demuxer_seek sl.1 left_position true).1
      right_demuxer := (demuxer_seek right_demuxer right_position true).1
      message := "Unable to seek past end of file"
      skip_update := true }
  else
    let sr := demuxer_seek right_demuxer next_right_position backward
    if !sr.2 && !backward then
      { left_demuxer := (demuxer_seek sl.1 left_position true).1
        right_demuxer := (demuxer_seek sr.1 right_position true).1
        message := "Unable to seek past end of file"
        skip_update := true }
    else
      { left_demuxer := sl.1, right_demuxer := sr.1, message := "", skip_update := true }

/-- C3: whenever a forward seek on either demuxer would pass end-of-stream
(its target exceeds that demuxer's duration), the seek block restores both
demuxers to the pre-seek position snapshot (the current playback position,
derived from the left pts plus each side's start time), surfaces the
user-visible message, and the iteration just marks `skip_update` — playback
continues. -/
theorem c3_forward_seek_failure_rolls_back (left_demuxer right_demuxer : Demuxer)
    (left_pts : Int) (left_start_time right_start_time : ℚ)
    (next_left next_right : ℚ)
    (hfail : left_demuxer.duration < next_left ∨ right_demuxer.duration < next_right) :
    (seek_block left_demuxer right_demuxer next_left next_right
      (seek_positions left_pts left_start_time right_start_time).1
      (seek_positions left_pts left_start_time right_start_time).2
      false).left_demuxer.position =
        (seek_positions left_pts left_start_time right_start_time).1 ∧
    (seek_block left_demuxer right_demuxer next_left next_right
      (seek_positions left_pts left_start_time right_start_time).1
      (seek_positions left_pts left_start_time right_start_time).2
      false).right_demuxer.position =
        (seek_positions left_pts left_start_time right_start_time).2 ∧
    (seek_block left_demuxer right_demuxer next_left next_right
      (seek_positions left_pts left_start_time right_start_time).1
      (seek_positions left_pts left_start_time right_start_time).2
      false).message = "Unable to seek past end of file" ∧
    (seek_block left_demuxer right_demuxer next_left next_right
      (seek_positions left_pts left_start_time right_start_time).1
      (seek_positions left_pts left_start_time right_start_time).2
      false).skip_update = true := by
  by_cases hL : next_left ≤ left_demuxer.duration
  · have hR : right_demuxer.duration < next_right := by
      rcases hfail with h | h
      · exact absurd hL (not_le.mpr h)
      · exact h
    simp [seek_block, demuxer_seek, hL, not_le.mpr hR]
  · simp [seek_block, demuxer_seek, hL]

/-- A concrete forward-seek overshoot: a 10-second stream cannot seek to
20 seconds. -/
lemma demuxer_ten_lt_twenty : (Demuxer.mk 0 10).duration < (20 : ℚ) := by
  show (10 : ℚ) < 20
  norm_num

/-- Witness for C3: both demuxers at position 0 of 10-second streams, a
forward seek to 20 seconds fails, and both are restored to the snapshot
positions with the message surfaced. -/
theorem c3_forward_seek_failure_rolls_back_witness :
    ((Demuxer.mk 0 10).duration < (20 : ℚ) ∨ (Demuxer.mk 0 10).duration < (20 : ℚ)) ∧
    ((seek_block ⟨0, 10⟩ ⟨0, 10⟩ 20 20 (seek_positions 0 0 0).1 (seek_positions 0 0 0).2
        false).left_demuxer.position = (seek_positions 0 0 0).1 ∧
     (seek_block ⟨0, 10⟩ ⟨0, 10⟩ 20 20 (seek_positions 0 0 0).1 (seek_positions 0 0 0).2
        false).right_demuxer.position = (seek_positions 0 0 0).2 ∧
     (seek_block ⟨0, 10⟩ ⟨0, 10⟩ 20 20 (seek_positions 0 0 0).1 (seek_positions 0 0 0).2
        false).message = "Unable to seek past end of file" ∧
     (seek_block ⟨0, 10⟩ ⟨0, 10⟩ 20 20 (seek_positions 0 0 0).1 (seek_positions 0 0 0).2
        false).skip_update = true) :=
  ⟨Or.inl demuxer_ten_lt_twenty,
    c3_forward_seek_failure_rolls_back ⟨0, 10⟩ ⟨0, 10⟩ 0 0 0 20 20
      (Or.inl demuxer_ten_lt_twenty)⟩

/-! ## Regular playback and pop failure (src/video_compare.cpp:543-571, 578-651) -/

/-- Modelled from the spec: `sorted_flat_deque<int32_t>` is not under
`src/`; per §3 it is a fixed-window (8-sample) collection of PTS deltas
whose `average()` is the mean of the currently held samples.  `push_back`
drops the oldest sample once the window is full. -/
def deque_push8 (dq : List Int) (x : Int) : List Int :=
  let dq2 := dq ++ [x]
  if 8 < dq2.length then dq2.drop 1 else dq2

/-- Modelled from the spec: the estimator's `average()`, the integer mean
of the held samples (0 when empty). -/
def deque_average (dq : List Int) : Int :=
  if dq.length = 0 then 0 else Int.tdiv dq.sum dq.length

/-- The per-side synchronization state owned by `compare()`
(src/video_compare.cpp:342-372): current PTS, decoded-picture counters,
rolling delta estimators, first-PTS baselines, and the two history rings. -/
structure PlaybackState where
  left_pts : Int
  right_pts : Int
  left_decoded_picture_number : Int
  right_decoded_picture_number : Int
  left_previous_decoded_picture_number : Int
  right_previous_decoded_picture_number : Int
  delta_left_pts : Int
  delta_right_pts : Int
  left_first_pts : Int
  right_first_pts : Int
  left_deque : List Int
  right_deque : List Int
  left_frames : List Frame
  right_frames : List Frame
  deriving DecidableEq, Repr

/-- The call made to the external pacing `Timer` by the regular-playback
branch: `update` re-baselines the target to now, `reset` restarts the
timer, `shift` moves the target by the computed frame delay (the C++
divides that delay by the external playback-speed factor before shifting;
the recorded value is the undivided `play_frame_delay`). -/
inductive TimerAction where
  | update
  | reset
  | shift (play_frame_delay : Int)
  deriving DecidableEq, Repr

/-- Result of the regular-playback fetch branch. -/
structure FetchResult where
  frame_left : Option Frame
  frame_right : Option Frame
  st : PlaybackState
  store_frames : Bool
  timer : Option TimerAction
  deriving DecidableEq, Repr

/-- Embedding of the regular-playback fetch (src/video_compare.cpp:543-571).
`pop_left`/`pop_right` are the frames the two frame-queue pops would
deliver (`none` = pop failure); by `||` short-circuiting the right pop is
not attempted when the left one fails.  `skip_update`, `loop_off`
(`display_->get_buffer_play_loop_mode() == Display::Loop::off`),
`adjusting`, `fetch_next_frame` and `frame_number_pos`
(`frame_number > 0`) are the iteration's control values;
`frame_left`/`frame_right` are the in-flight frame pointers entering the
branch.  On a failed pop both pointers are nulled (discarding a frame the
other side's successful pop may have delivered) and the timer is
re-baselined with `update()`. -/
def playback_fetch (st : PlaybackState) (frame_left frame_right : Option Frame)
    (skip_update loop_off adjusting fetch_next_frame frame_number_pos : Bool)
    (pop_left pop_right : Option Frame) (right_time_shift : Int) : FetchResult :=
  if !skip_update && loop_off then
    if !adjusting && fetch_next_frame then
      match pop_left, pop_right with
      | some fl, some fr =>
          let st1 := { st with
            left_decoded_picture_number := st.left_decoded_picture_number + 1
            right_decoded_picture_number := st.right_decoded_picture_number + 1 }
          if frame_number_pos then
            let play_frame_delay := compute_frame_delay (fl.pts - st1.left_pts)
              (fr.pts - st1.right_pts - right_time_shift)
            { frame_left := some fl, frame_right := some fr, st := st1,
              store_frames := true, timer := some (TimerAction.shift play_frame_delay) }
          else
            { frame_left := some fl, frame_right := some fr,
              st := { st1 with left_first_pts := fl.pts, right_first_pts := fr.pts },
              store_frames := true, timer := some TimerAction.update }
      | _, _ =>
          { frame_left := none, frame_right := none, st := st,
            store_frames := false, timer := some TimerAction.update }
    else
      { frame_left := frame_left, frame_right := frame_right, st := st,
        store_frames := false, timer := some TimerAction.reset }
  else
    { frame_left := frame_left, frame_right := frame_right, st := st,
      store_frames := false, timer := none }

/-- Patch the duration of a ring's back (oldest) entry when its PTS still
equals the recorded first PTS (src/video_compare.cpp:591-594, 614-617). -/
def patch_first_duration (ring : List Frame) (first_pts delta : Int) : List Frame :=
  match ring.getLast? with
  | some lastf =>
      if lastf.pts = first_pts then ring.dropLast ++ [{ lastf with duration := delta }]
      else ring
  | none => ring

/-- Embedding of the left duration back-patch
(src/video_compare.cpp:581-601), executed when `frame_left` is non-null:
if the picture counter advanced by exactly 1, the PTS delta of the previous
picture enters the rolling estimator; a positive average overwrites the
current frame's duration (and the oldest buffered entry's, when it is
still the first frame); otherwise the decoder-reported duration becomes
the new delta.  Returns the updated state and frame. -/
def duration_update_left (st : PlaybackState) (fl : Frame) : PlaybackState × Frame :=
  let stepped :=
    st.left_decoded_picture_number - st.left_previous_decoded_picture_number = 1
  let dq := if stepped then deque_push8 st.left_deque (fl.pts - st.left_pts) else st.left_deque
  let delta := if stepped then deque_average dq else st.delta_left_pts
  if 0 < delta then
    ({ st with
        left_deque := dq
        delta_left_pts := delta
        left_frames := patch_first_duration st.left_frames st.left_first_pts delta
        left_pts := fl.pts
        left_previous_decoded_picture_number := st.left_decoded_picture_number },
     { fl with duration := delta })
  else
    ({ st with
        left_deque := dq
        delta_left_pts := fl.duration
        left_pts := fl.pts
        left_previous_decoded_picture_number := st.left_decoded_picture_number },
     fl)

/-- Embedding of the right duration back-patch
(src/video_compare.cpp:602-624); the right PTS is first shifted by
`right_time_shift`. -/
def duration_update_right (st : PlaybackState) (fr : Frame) (right_time_shift : Int) :
    PlaybackState × Frame :=
  let new_right_pts := fr.pts - right_time_shift
  let stepped :=
    st.right_decoded_picture_number - st.right_previous_decoded_picture_number = 1
  let dq :=
    if stepped then deque_push8 st.right_deque (new_right_pts - st.right_pts)
    else st.right_deque
  let delta := if stepped then deque_average dq else st.delta_right_pts
  if 0 < delta then
    ({ st with
        right_deque := dq
        delta_right_pts := delta
        right_frames := patch_first_duration st.right_frames st.right_first_pts delta
        right_pts := new_right_pts
        right_previous_decoded_picture_number := st.right_decoded_picture_number },
     { fr with duration := delta })
  else
    ({ st with
        right_deque := dq
        delta_right_pts := fr.duration
        right_pts := new_right_pts
        right_previous_decoded_picture_number := st.right_decoded_picture_number },
     fr)

/-- Embedding of the iteration tail (src/video_compare.cpp:578-651): the
two duration back-patch blocks (each run only when its frame pointer is
non-null) followed by the history-ring update. -/
def iteration_tail (st : PlaybackState) (frame_left frame_right : Option Frame)
    (store_frames : Bool) (right_time_shift : Int) (cap : Nat) : PlaybackState :=
  let stl := match frame_left with
    | none => (st, (none : Option Frame))
    | some fl =>
        let p := duration_update_left st fl
        (p.1, some p.2)
  let str := match frame_right with
    | none => (stl.1, (none : Option Frame))
    | some fr =>
        let p := duration_update_right stl.1 fr right_time_shift
        (p.1, some p.2)
  let rings := history_update cap store_frames stl.2 str.2 str.1.left_frames str.1.right_frames
  { str.1 with left_frames := rings.1, right_frames := rings.2 }

/-- C10: in regular playback (iteration not skipped, buffer loop mode off,
not adjusting, play or pending step active), if either side's frame-queue
pop fails, both in-flight frame pointers are nulled — a frame the other
side's successful pop delivered is discarded — and the pacing timer is
re-baselined (`Timer::update()`, the "reset" of the stalled pacing
deadline); no PTS, picture counter, delta estimator, first-PTS baseline or
history ring changes in that iteration. -/
theorem c10_pop_failure_freezes_iteration (st : PlaybackState)
    (frame_left frame_right : Option Frame) (frame_number_pos : Bool)
    (pop_left pop_right : Option Frame) (right_time_shift : Int) (cap : Nat)
    (hfail : pop_left = none ∨ pop_right = none) :
    (playback_fetch st frame_left frame_right false true false true frame_number_pos
      pop_left pop_right right_time_shift).frame_left = none ∧
    (playback_fetch st frame_left frame_right false true false true frame_number_pos
      pop_left pop_right right_time_shift).frame_right = none ∧
    (playback_fetch st frame_left frame_right false true false true frame_number_pos
      pop_left pop_right right_time_shift).store_frames = false ∧
    (playback_fetch st frame_left frame_right false true false true frame_number_pos
      pop_left pop_right right_time_shift).timer = some TimerAction.update ∧
    (playback_fetch st frame_left frame_right false true false true frame_number_pos
      pop_left pop_right right_time_shift).st = st ∧
    iteration_tail
      (playback_fetch st frame_left frame_right false true false true frame_number_pos
        pop_left pop_right right_time_shift).st
      (playback_fetch st frame_left frame_right false true false true frame_number_pos
        pop_left pop_right right_time_shift).frame_left
      (playback_fetch st frame_left frame_right false true false true frame_number_pos
        pop_left pop_right right_time_shift).frame_right
      (playback_fetch st frame_left frame_right false true false true frame_number_pos
        pop_left pop_right right_time_shift).store_frames
      right_time_shift cap = st := by
  have hmatch : (playback_fetch st frame_left frame_right false true false true frame_number_pos
      pop_left pop_right right_time_shift) =
      { frame_left := none, frame_right := none, st := st,
        store_frames := false, timer := some TimerAction.update } := by
    rcases hfail with h | h
    · subst h
      rfl
    · subst h
      cases pop_left <;> rfl
  rw [hmatch]
  refine ⟨rfl, rfl, rfl, rfl, rfl, rfl⟩

/-- A concrete mid-playback state used by the C10 witness. -/
def sample_playback_state : PlaybackState :=
  { left_pts := 100, right_pts := 90,
    left_decoded_picture_number := 3, right_decoded_picture_number := 4,
    left_previous_decoded_picture_number := 2, right_previous_decoded_picture_number := 3,
    delta_left_pts := 40, delta_right_pts := 40,
    left_first_pts := 0, right_first_pts := 0,
    left_deque := [40], right_deque := [40],
    left_frames := [⟨100, 40⟩], right_frames := [⟨90, 40⟩] }

/-- Witness for C10: the left pop delivers a frame but the right pop fails;
the delivered frame is discarded, the timer is re-baselined, and the state
(including both rings) is unchanged. -/
theorem c10_pop_failure_freezes_iteration_witness :
    ((some (Frame.mk 140 0) = (none : Option Frame)) ∨ ((none : Option Frame) = none)) ∧
    ((playback_fetch sample_playback_state none none false true false true true
        (some ⟨140, 0⟩) none 0).frame_left = none ∧
     (playback_fetch sample_playback_state none none false true false true true
        (some ⟨140, 0⟩) none 0).frame_right = none ∧
     (playback_fetch sample_playback_state none none false true false true true
        (some ⟨140, 0⟩) none 0).store_frames = false ∧
     (playback_fetch sample_playback_state none none false true false true true
        (some ⟨140, 0⟩) none 0).timer = some TimerAction.update ∧
     (playback_fetch sample_playback_state none none false true false true true
        (some ⟨140, 0⟩) none 0).st = sample_playback_state ∧
     iteration_tail
       (playback_fetch sample_playback_state none none false true false true true
         (some ⟨140, 0⟩) none 0).st
       (playback_fetch sample_playback_state none none false true false true true
         (some ⟨140, 0⟩) none 0).frame_left
       (playback_fetch sample_playback_state none none false true false true true
         (some ⟨140, 0⟩) none 0).frame_right
       (playback_fetch sample_playback_state none none false true false true true
         (some ⟨140, 0⟩) none 0).store_frames
       0 5 = sample_playback_state) :=
  ⟨Or.inr rfl,
    c10_pop_failure_freezes_iteration sample_playback_state none none true
      (some ⟨140, 0⟩) none 0 5 (Or.inr rfl)⟩
